import Mathlib

/-!
Verification of `network_request_handler.py` and `scripts/agent_orchestrator.py`.

A shallow embedding of the two Python source files, together with proofs
about the claims of the specification.

Modelling conventions:
* Python exceptions become an explicit `PyError` value in an `Except`.
* The HTTP transport (`requests.Session.get`) is modelled as an oracle
  `Nat → GetOutcome` giving, for each submitted request (numbered in
  submission order), either the returned response (status and body) or a
  raised `requests.RequestException` (which also covers timeouts, since
  `requests.Timeout` is a subclass of `RequestException`).
* Thread scheduling inside `fetch_all` is modelled by the list `order` of
  request indices in the order `concurrent.futures.as_completed` yields
  them; a genuine completion order is a permutation of the submission
  indices `List.range urls.length`.
-/

/-- The Python exceptions that the embedded code can surface to a caller.
`requestException` stands for the `requests.RequestException` family,
`runtimeError` for the `RuntimeError` that `ThreadPoolExecutor.submit`
raises after shutdown, `typeError` for the error raised when a
`concurrent.futures.Future` is used as a context manager (an
`AttributeError` on `__enter__` before CPython 3.11, a `TypeError` from
3.11 on — in either case not a `requests.RequestException`), and
`valueError` for the `ValueError` that `ThreadPoolExecutor.__init__`
raises when `max_workers <= 0`. -/
inductive PyError where
  | requestException
  | runtimeError
  | typeError
  | valueError
  deriving Repr, DecidableEq

/-- Outcome of one call to `self.session.get(url, timeout=timeout)`:
either a `Response` with a status code and a body text, or a raised
`requests.RequestException` (connection failure, DNS failure, timeout,
too many redirects, ...). -/
inductive GetOutcome where
  | response (status : Nat) (body : String)
  | raised
  deriving Repr, DecidableEq

/-- The method `requests.Response.raise_for_status` raises `requests.HTTPError`
exactly when `400 <= status_code < 600`; informational (1xx),
successful (2xx) and redirection (3xx) codes do not raise. -/
def raiseForStatus (status : Nat) : Bool :=
  decide (400 ≤ status ∧ status < 600)

/-- State of one `NetworkRequestHandler` instance
(`src/network_request_handler.py`, lines 4-68): the `max_workers`
argument stored by `__init__`, whether the `ThreadPoolExecutor` has been
shut down, and whether the `requests.Session` has been closed. -/
structure NetworkRequestHandler where
  max_workers : Int
  executorShutdown : Bool
  sessionClosed : Bool
  deriving Repr, DecidableEq

/-- The default of the `max_workers` parameter of
`NetworkRequestHandler.__init__` (line 13 of the source). -/
def defaultMaxWorkers : Int := 5

/-- Constructor `NetworkRequestHandler.__init__` (lines 13-16): stores `max_workers`,
creates a `requests.Session`, and creates a
`ThreadPoolExecutor(max_workers=max_workers)`.  The executor constructor
raises `ValueError` when `max_workers <= 0`, so construction fails and no
usable instance is produced. -/
def NetworkRequestHandler.init (max_workers : Int := defaultMaxWorkers) :
    Except PyError NetworkRequestHandler :=
  if max_workers ≤ 0 then
    Except.error PyError.valueError
  else
    Except.ok { max_workers := max_workers
                executorShutdown := false
                sessionClosed := false }

/-- Method `NetworkRequestHandler.fetch` (lines 18-36).  The body runs
`with self.executor.submit(self.session.get, url, timeout=timeout) as future:`.
`submit` raises `RuntimeError` if the executor has been shut down;
otherwise the submission succeeds but the `with` statement then fails,
because `concurrent.futures.Future` does not support the context-manager
protocol.  Neither exception is a `requests.RequestException`, so the
`except` clause on line 34 catches neither and every call raises. -/
def NetworkRequestHandler.fetch (h : NetworkRequestHandler) (url : String)
    (outcome : GetOutcome) : Except PyError (Option String) :=
  if h.executorShutdown then
    Except.error PyError.runtimeError
  else
    Except.error PyError.typeError

/-- What `fetch_all` appends for one completed future (lines 54-60):
the response text when `future.result()` returns and `raise_for_status`
does not raise, `None` when the request raised a
`requests.RequestException` or the status is 4xx/5xx. -/
def itemResult (o : GetOutcome) : Option String :=
  match o with
  | GetOutcome.response status body =>
      if raiseForStatus status then none else some body
  | GetOutcome.raised => none

/-- Observable result of one call to `fetch_all`: the returned list, the
URLs submitted to the executor (one `executor.submit` per URL of the
input, duplicates included, since the `futures` dict is keyed by the
distinct future objects), and the handler state after the call —
`with self.executor as executor:` runs `executor.shutdown(wait=True)`
when the scope exits. -/
structure BatchRun where
  results : List (Option String)
  submitted : List String
  handler : NetworkRequestHandler
  deriving Repr, DecidableEq

/-- Method `NetworkRequestHandler.fetch_all` (lines 38-61).  The futures dict
comprehension submits every URL; the first `submit` raises
`RuntimeError` when the executor was already shut down (so a non-empty
batch on a shut-down handler raises, while an empty batch submits
nothing and succeeds).  The loop over `as_completed(futures)` appends
one `itemResult` per future in completion order `order`, so the output
is ordered by completion, not by input position.  On exit of the `with`
block the executor is shut down. -/
def NetworkRequestHandler.fetch_all (h : NetworkRequestHandler)
    (urls : List String) (outcome : Nat → GetOutcome) (order : List Nat) :
    Except PyError BatchRun :=
  if h.executorShutdown = true ∧ urls ≠ [] then
    Except.error PyError.runtimeError
  else
    Except.ok { results := order.map (fun i => itemResult (outcome i))
                submitted := urls
                handler := { h with executorShutdown := true } }

/-- Method `NetworkRequestHandler.shutdown` (lines 63-68):
`executor.shutdown(wait=True)` then `session.close()`.  Both library
calls are idempotent and never raise on repetition, so the method is a
total state transformer. -/
def NetworkRequestHandler.shutdown (h : NetworkRequestHandler) :
    NetworkRequestHandler :=
  { h with executorShutdown := true, sessionClosed := true }

/-- A handler as produced by `NetworkRequestHandler(max_workers=5)`. -/
def freshHandler : NetworkRequestHandler :=
  { max_workers := 5, executorShutdown := false, sessionClosed := false }

/-- Transport oracle used in concrete counterexamples about result
order: request 0 succeeds with body `A`, request 1 with body `B`. -/
def twoOkOutcomes : Nat → GetOutcome := fun i =>
  if i = 0 then GetOutcome.response 200 "A" else GetOutcome.response 200 "B"

/-!
Scheduling model of `concurrent.futures.ThreadPoolExecutor`.

The handler creates `ThreadPoolExecutor(max_workers=max_workers)`
(line 16).  CPython's executor keeps submitted work items on an
unbounded internal queue and runs them on at most `max_workers` worker
threads, each executing one item at a time.  The step relation below
models exactly that discipline; `running` holds the items currently
executing, `queued` the submitted items not yet started. -/

/-- State of the executor's scheduler: submitted-but-not-started work
items and currently executing work items (identified by submission
number). -/
structure PoolState where
  queued : List Nat
  running : List Nat
  deriving Repr, DecidableEq

/-- One scheduling step of a `ThreadPoolExecutor` with `m` worker
threads: a submission enqueues unconditionally (the internal queue is
unbounded, so submissions are never rejected), an idle worker may start
the next queued item only while fewer than `m` items run, and a running
item may finish at any time. -/
inductive PoolStep (m : Nat) : PoolState → PoolState → Prop where
  | submit (i : Nat) (s : PoolState) :
      PoolStep m s { s with queued := s.queued ++ [i] }
  | start (i : Nat) (q : List Nat) (s : PoolState) :
      s.queued = i :: q → s.running.length < m →
      PoolStep m s { queued := q, running := i :: s.running }
  | finish (l r : List Nat) (i : Nat) (s : PoolState) :
      s.running = l ++ i :: r →
      PoolStep m s { s with running := l ++ r }

/-- Pool states reachable from the freshly constructed executor, which
has no queued and no running work. -/
inductive PoolReachable (m : Nat) : PoolState → Prop where
  | init : PoolReachable m { queued := [], running := [] }
  | step {s t : PoolState} :
      PoolReachable m s → PoolStep m s t → PoolReachable m t

/-!
Model of `scripts/agent_orchestrator.py`.

The orchestrator reads `ISSUE_TITLE` and `ISSUE_BODY` from the
environment, builds one prompt, and runs the `aider` command once via
`subprocess.run(..., check=True, timeout=600)`. -/

/-- How the single `subprocess.run` invocation can turn out: the child
completed within the timeout with some exit code, the 600-second
timeout expired, or the process could not be started at all (e.g. the
`aider` executable is missing, raising `FileNotFoundError`). -/
inductive ProcOutcome where
  | completed (exitCode : Int)
  | timedOut
  | startFailure
  deriving Repr, DecidableEq

/-- The `timeout=600` argument of `subprocess.run` in `execute_agent`
(line 79): the bounded wall-clock budget, in seconds, of the one
launched process. -/
def agentTimeoutSeconds : Nat := 600

/-- Method `AiderOrchestrator._build_strict_prompt` (lines 39-54): a single
formatted text prompt embedding the issue title and body. -/
def build_strict_prompt (issue_title issue_body : String) : String :=
  "You are an autonomous Senior Staff Engineer. " ++
  "Resolve the following issue automatically.\n\n" ++
  "Title: " ++ issue_title ++ "\n" ++
  "Description: " ++ issue_body ++ "\n\n" ++
  "Constraints:\n" ++
  "1. Produce highly scalable and efficient code.\n" ++
  "2. Ensure strict PEP8 compliance.\n" ++
  "3. All code and comments MUST be strictly in English.\n" ++
  "4. Handle all exceptions gracefully."

/-- The argument vector of the one external process launched by
`execute_agent` (lines 64-70). -/
def agentCommand (model issue_title issue_body : String) : List String :=
  ["aider", "--model", model, "--yes", "--no-suggest-shell-commands",
   "--message", build_strict_prompt issue_title issue_body]

/-- Method `AiderOrchestrator.execute_agent` (lines 56-91): `subprocess.run`
with `check=True` returns normally only on exit code 0; a non-zero exit
code raises `CalledProcessError` (caught, returns `False`); the timeout
raises `TimeoutExpired` (caught, returns `False`); a start failure
raises `FileNotFoundError`/`OSError`, which no `except` clause catches,
so it propagates (`none`). -/
def execute_agent (proc : ProcOutcome) : Option Bool :=
  match proc with
  | ProcOutcome.completed c => some (decide (c = 0))
  | ProcOutcome.timedOut => some false
  | ProcOutcome.startFailure => none

/-- Observable result of one run of the orchestrator script: the
external processes launched (argument vector paired with the wall-clock
timeout, in seconds, passed to `subprocess.run`) and the interpreter's
exit status. -/
structure ScriptRun where
  launched : List (List String × Nat)
  exitCode : Int
  deriving Repr, DecidableEq

/-- The default `model_identifier` of `AiderOrchestrator.__init__`
(line 30). -/
def defaultModelIdentifier : String := "ollama/qwen2.5-coder:7b"

/-- The `__main__` block (lines 93-98) together with
`AiderOrchestrator.__init__` (lines 30-37): an empty `ISSUE_TITLE`
makes `__init__` call `sys.exit(1)` before any process is launched;
otherwise `execute_agent` launches exactly one process under the
600-second timeout, and the script exits 0 on `True`, exits 1 on
`False` (`sys.exit(1)`), and exits 1 via the unhandled-exception path
when `execute_agent` raises (CPython exits with status 1 on an uncaught
exception). -/
def scriptMain (issue_title issue_body : String) (proc : ProcOutcome) :
    ScriptRun :=
  if issue_title = "" then
    { launched := [], exitCode := 1 }
  else
    let cmd := (agentCommand defaultModelIdentifier issue_title issue_body,
                agentTimeoutSeconds)
    match execute_agent proc with
    | some true => { launched := [cmd], exitCode := 0 }
    | some false => { launched := [cmd], exitCode := 1 }
    | none => { launched := [cmd], exitCode := 1 }

/-!
Helper lemmas.
-/

/-- The scheduler never runs more than `m` items at once: `submit`
leaves `running` unchanged, `start` is guarded by `running.length < m`,
and `finish` shrinks `running`. -/
theorem poolReachable_running_le {m : Nat} {s : PoolState}
    (h : PoolReachable m s) : s.running.length ≤ m := by
  induction h with
  | init => exact Nat.zero_le m
  | step _ hstep ih =>
    cases hstep with
    | submit i s => exact ih
    | start i q s hq hlt => exact hlt
    | finish l r i s hrun =>
      rw [hrun] at ih
      simp only [List.length_append, List.length_cons] at ih ⊢
      omega

/-- A non-empty batch on a handler whose executor is still alive takes
the `ok` branch of `fetch_all`. -/
theorem fetch_all_ok {h : NetworkRequestHandler} (urls : List String)
    (outcome : Nat → GetOutcome) (order : List Nat)
    (halive : h.executorShutdown = false) :
    h.fetch_all urls outcome order =
      Except.ok { results := order.map (fun i => itemResult (outcome i))
                  submitted := urls
                  handler := { h with executorShutdown := true } } := by
  rw [NetworkRequestHandler.fetch_all, if_neg]
  rintro ⟨hsd, -⟩
  rw [halive] at hsd
  exact Bool.false_ne_true hsd

/-- The loop of `fetch_all` appends `None` for a completed request exactly when the
request raised a `requests.RequestException` or its response status is
in the 4xx/5xx range that `raise_for_status` turns into `HTTPError`. -/
theorem itemResult_eq_none_iff (o : GetOutcome) :
    itemResult o = none ↔
      o = GetOutcome.raised ∨
      ∃ status body, o = GetOutcome.response status body ∧
        400 ≤ status ∧ status < 600 := by
  cases o with
  | raised => simp [itemResult]
  | response st b =>
    by_cases hst : 400 ≤ st ∧ st < 600
    · simp [itemResult, raiseForStatus, hst]
    · simp [itemResult, raiseForStatus, hst]

/-!
Claims.
-/

/-- Claim C1 (refuted by the code): `fetch_all` assembles its output by
iterating `as_completed`, so with two URLs whose requests both succeed
but whose futures complete in reverse submission order — `[1, 0]` is a
genuine completion order, being a permutation of `List.range 2` — the
returned list is `[body of urls[1], body of urls[0]]`, not the
index-aligned `[body of urls[0], body of urls[1]]` the claim states. -/
theorem c1_completion_order_misaligns :
    (freshHandler.fetch_all ["a", "b"] twoOkOutcomes [1, 0]).map
        BatchRun.results = Except.ok [some "B", some "A"] ∧
    List.Perm [1, 0] (List.range 2) ∧
    ([some "B", some "A"] : List (Option String)) ≠ [some "A", some "B"] :=
  ⟨rfl, by decide, by decide⟩

/-- Claim C2 (refuted by the code): `fetch` wraps the `Future` returned
by `executor.submit` in a `with` statement, but `Future` is not a
context manager, so every call raises (`AttributeError`/`TypeError`) —
the `except requests.RequestException` clause does not catch it — even
when the request itself returns a 2xx response, and equally on a
transport failure; `fetch` never returns the body and never returns
`None`. -/
theorem c2_fetch_always_raises :
    freshHandler.fetch "https://example.com" (GetOutcome.response 200 "hello")
        = Except.error PyError.typeError ∧
    freshHandler.fetch "https://bad-host" GetOutcome.raised
        = Except.error PyError.typeError ∧
    (Except.error PyError.typeError : Except PyError (Option String)) ≠
      Except.ok (some "hello") :=
  ⟨rfl, rfl, fun hcontra => Except.noConfusion hcontra⟩

/-- Claim C3: on a live handler, `fetch_all` over `N` URLs returns a
list of length exactly `N` for every completion order of the `N`
submitted futures — each future contributes exactly one appended
element, so no request is dropped — and exactly `N` requests are
submitted. -/
theorem c3_fetch_all_length (h : NetworkRequestHandler)
    (urls : List String) (outcome : Nat → GetOutcome) (order : List Nat)
    (halive : h.executorShutdown = false)
    (hperm : order.Perm (List.range urls.length)) :
    ∃ run : BatchRun, h.fetch_all urls outcome order = Except.ok run ∧
      run.results.length = urls.length ∧
      run.submitted.length = urls.length := by
  refine ⟨_, fetch_all_ok urls outcome order halive, ?_, rfl⟩
  simp [hperm.length_eq]

/-- Witness for C3: a concrete two-URL batch, completing in reverse
order, yields two results and two submissions. -/
theorem c3_fetch_all_length_witness :
    ∃ run : BatchRun,
      freshHandler.fetch_all ["a", "b"] twoOkOutcomes [1, 0] =
        Except.ok run ∧
      run.results.length = (["a", "b"] : List String).length ∧
      run.submitted.length = (["a", "b"] : List String).length :=
  c3_fetch_all_length freshHandler ["a", "b"] twoOkOutcomes [1, 0] rfl
    (by decide)

/-- Claim C7: `fetch_all` on the empty URL list returns the empty list
and submits no request to the executor (and, as always, the scoped use
of the executor leaves it shut down afterwards). -/
theorem c7_empty_batch_no_requests (h : NetworkRequestHandler)
    (outcome : Nat → GetOutcome) :
    h.fetch_all [] outcome [] =
      Except.ok { results := []
                  submitted := []
                  handler := { h with executorShutdown := true } } := by
  rw [NetworkRequestHandler.fetch_all, if_neg]
  · rfl
  · rintro ⟨-, hne⟩
    exact hne rfl

/-- Transport oracle for the C4 counterexample: request 0 gets a 200
with body `a`, request 1 gets a 304 Not Modified — a non-2xx status
that `raise_for_status` does not raise on. -/
def okAnd304Outcomes : Nat → GetOutcome := fun i =>
  if i = 0 then GetOutcome.response 200 "a" else GetOutcome.response 304 ""

/-- Transport oracle for the C4 independence witness: request 0 raises
a transport error, request 1 gets the same 304 response as in
`okAnd304Outcomes`. -/
def raisedAnd304Outcomes : Nat → GetOutcome := fun i =>
  if i = 0 then GetOutcome.raised else GetOutcome.response 304 ""

/-- Claim C4 counterexample: the claim says a request that returns a
non-2xx status resolves to the absent marker, but `raise_for_status`
only raises for 4xx/5xx, so a request answered with status 304 (a
non-2xx status) resolves to its body text `some ""`, not `none`. -/
theorem c4_non2xx_not_always_absent :
    (freshHandler.fetch_all ["ok-url", "not-modified-url"]
        okAnd304Outcomes [0, 1]).map BatchRun.results =
      Except.ok [some "a", some ""] ∧
    (some "" : Option String) ≠ none :=
  ⟨rfl, by decide⟩

/-- Claim C4 (amended): within one `fetch_all` call each request
resolves independently — the element produced at position `p` of the
completion order, where `order` yields request `i` at `p`, is determined
by request `i`'s own outcome alone: `none` exactly when the request
raised (unreachable, timed out) or was answered with a 4xx/5xx status,
its body text otherwise; replacing the outcomes of all other requests
leaves that element unchanged. -/
theorem c4_requests_resolve_independently (h : NetworkRequestHandler)
    (urls : List String) (outcome outcome2 : Nat → GetOutcome)
    (order : List Nat) (p i : Nat)
    (halive : h.executorShutdown = false)
    (hperm : order.Perm (List.range urls.length))
    (hp : order.get? p = some i)
    (hagree : outcome i = outcome2 i) :
    ∃ run run2 : BatchRun,
      h.fetch_all urls outcome order = Except.ok run ∧
      h.fetch_all urls outcome2 order = Except.ok run2 ∧
      run.results.get? p = some (itemResult (outcome i)) ∧
      run2.results.get? p = run.results.get? p ∧
      (itemResult (outcome i) = none ↔
        outcome i = GetOutcome.raised ∨
        ∃ status body, outcome i = GetOutcome.response status body ∧
          400 ≤ status ∧ status < 600) := by
  rw [List.get?_eq_getElem?] at hp
  refine ⟨_, _, fetch_all_ok urls outcome order halive,
    fetch_all_ok urls outcome2 order halive, ?_, ?_,
    itemResult_eq_none_iff (outcome i)⟩
  · simp [List.get?_eq_getElem?, List.getElem?_map, hp]
  · simp [List.get?_eq_getElem?, List.getElem?_map, hp, hagree]

/-- Witness for C4: a concrete batch where request 1 is the one
observed, request 0's outcome differs between the two oracles, and
request 1 resolves to `some ""` either way. -/
theorem c4_requests_resolve_independently_witness :
    (0 : Nat) < 1 ∧
    ∃ run run2 : BatchRun,
      freshHandler.fetch_all ["u", "v"] okAnd304Outcomes [1, 0] =
        Except.ok run ∧
      freshHandler.fetch_all ["u", "v"] raisedAnd304Outcomes [1, 0] =
        Except.ok run2 ∧
      run.results.get? 0 = some (itemResult (okAnd304Outcomes 1)) ∧
      run2.results.get? 0 = run.results.get? 0 ∧
      (itemResult (okAnd304Outcomes 1) = none ↔
        okAnd304Outcomes 1 = GetOutcome.raised ∨
        ∃ status body,
          okAnd304Outcomes 1 = GetOutcome.response status body ∧
            400 ≤ status ∧ status < 600) :=
  ⟨Nat.zero_lt_one,
    c4_requests_resolve_independently freshHandler ["u", "v"]
      okAnd304Outcomes raisedAnd304Outcomes [1, 0] 0 1 rfl (by decide) rfl
      (by decide)⟩

/-- Claim C5: for a handler whose construction succeeded, in every
scheduler state its `ThreadPoolExecutor` can reach, at most
`max_workers` work items are executing concurrently, and a further
submission is always accepted (it is enqueued, never rejected),
whatever the batch size already submitted. -/
theorem c5_concurrency_bounded (mw : Int) (h : NetworkRequestHandler)
    (hinit : NetworkRequestHandler.init mw = Except.ok h)
    (s : PoolState) (hreach : PoolReachable h.max_workers.toNat s) :
    s.running.length ≤ h.max_workers.toNat ∧
    ∀ i : Nat, PoolStep h.max_workers.toNat s
      { s with queued := s.queued ++ [i] } :=
  ⟨poolReachable_running_le hreach, fun i => PoolStep.submit i s⟩

/-- Witness for C5: a handler built with `max_workers = 2`, at the
executor's initial scheduler state. -/
theorem c5_concurrency_bounded_witness :
    (PoolState.mk [] []).running.length ≤
      (NetworkRequestHandler.mk 2 false false).max_workers.toNat ∧
    PoolStep (NetworkRequestHandler.mk 2 false false).max_workers.toNat
      (PoolState.mk [] []) (PoolState.mk [7] []) :=
  ⟨(c5_concurrency_bounded 2 (NetworkRequestHandler.mk 2 false false) rfl
      (PoolState.mk [] []) PoolReachable.init).1,
   (c5_concurrency_bounded 2 (NetworkRequestHandler.mk 2 false false) rfl
      (PoolState.mk [] []) PoolReachable.init).2 7⟩

/-- Claim C6 counterexample: after an explicit `shutdown()`, a call to
`fetch_all` with the empty URL list does not fail — it submits nothing,
so no `RuntimeError` is raised, and it silently returns the empty
list — refuting that any call to `fetch` or `fetch_all` after shutdown
surfaces a usage error. -/
theorem c6_empty_batch_after_shutdown_succeeds :
    freshHandler.shutdown.fetch_all [] twoOkOutcomes [] =
      Except.ok { results := []
                  submitted := []
                  handler := freshHandler.shutdown } := rfl

/-- Claim C6 (amended): `shutdown` is idempotent — a second call is a
no-op and cannot fault — and after shutdown every call to `fetch`, and
every call to `fetch_all` with at least one URL, raises a
`RuntimeError` to the caller; `fetch_all` on the empty list, however,
still returns the empty list without error. -/
theorem c6_shutdown_idempotent_and_usage_errors :
    (∀ h : NetworkRequestHandler, h.shutdown.shutdown = h.shutdown) ∧
    (∀ (h : NetworkRequestHandler) (url : String) (o : GetOutcome),
      h.executorShutdown = true →
      h.fetch url o = Except.error PyError.runtimeError) ∧
    (∀ (h : NetworkRequestHandler) (urls : List String)
        (outcome : Nat → GetOutcome) (order : List Nat),
      h.executorShutdown = true → urls ≠ [] →
      h.fetch_all urls outcome order = Except.error PyError.runtimeError) := by
  refine ⟨fun h => rfl, fun h url o hsd => ?_,
    fun h urls outcome order hsd hne => ?_⟩
  · rw [NetworkRequestHandler.fetch, if_pos hsd]
  · rw [NetworkRequestHandler.fetch_all, if_pos ⟨hsd, hne⟩]

/-- Witness for C6: the amended statement at a handler that has been
shut down once. -/
theorem c6_shutdown_idempotent_and_usage_errors_witness :
    freshHandler.shutdown.shutdown = freshHandler.shutdown ∧
    freshHandler.shutdown.fetch "u" (GetOutcome.response 200 "x") =
      Except.error PyError.runtimeError ∧
    freshHandler.shutdown.fetch_all ["u"] twoOkOutcomes [0] =
      Except.error PyError.runtimeError :=
  ⟨c6_shutdown_idempotent_and_usage_errors.1 freshHandler,
   c6_shutdown_idempotent_and_usage_errors.2.1 freshHandler.shutdown "u"
     (GetOutcome.response 200 "x") rfl,
   c6_shutdown_idempotent_and_usage_errors.2.2 freshHandler.shutdown ["u"]
     twoOkOutcomes [0] rfl (by decide)⟩

/-- Claim C8: `max_workers` defaults to 5, a non-positive `max_workers`
makes construction fail hard with the executor's `ValueError` (no
instance is produced), and a positive `max_workers` yields a live
handler storing that value. -/
theorem c8_construction_validates_max_workers (mw : Int) :
    defaultMaxWorkers = 5 ∧
    (mw ≤ 0 →
      NetworkRequestHandler.init mw = Except.error PyError.valueError) ∧
    (0 < mw →
      NetworkRequestHandler.init mw =
        Except.ok (NetworkRequestHandler.mk mw false false)) := by
  refine ⟨rfl, fun hle => ?_, fun hpos => ?_⟩
  · rw [NetworkRequestHandler.init, if_pos hle]
  · rw [NetworkRequestHandler.init, if_neg (by omega)]

/-- Witness for C8: construction fails at `max_workers = -1` and at
`0`, and succeeds at `3`. -/
theorem c8_construction_validates_max_workers_witness :
    defaultMaxWorkers = 5 ∧
    NetworkRequestHandler.init (-1) = Except.error PyError.valueError ∧
    NetworkRequestHandler.init 0 = Except.error PyError.valueError ∧
    NetworkRequestHandler.init 3 =
      Except.ok (NetworkRequestHandler.mk 3 false false) :=
  ⟨(c8_construction_validates_max_workers 1).1,
   (c8_construction_validates_max_workers (-1)).2.1 (by decide),
   (c8_construction_validates_max_workers 0).2.1 (by decide),
   (c8_construction_validates_max_workers 3).2.2 (by decide)⟩

/-- The handler state left behind by a first one-URL `fetch_all` on a
fresh handler (used in the C9 counterexample). -/
def afterFirstBatch : NetworkRequestHandler :=
  match freshHandler.fetch_all ["a"] twoOkOutcomes [0] with
  | Except.ok run => run.handler
  | Except.error _ => freshHandler

/-- Claim C9 counterexample: after a first `fetch_all` the executor is
indeed shut down, yet a subsequent `fetch_all` with the empty URL list
does not fail — it submits nothing and returns the empty list — so not
every subsequent call fails. -/
theorem c9_subsequent_empty_batch_succeeds :
    afterFirstBatch.executorShutdown = true ∧
    afterFirstBatch.fetch_all [] twoOkOutcomes [] =
      Except.ok { results := []
                  submitted := []
                  handler := afterFirstBatch } :=
  ⟨rfl, rfl⟩

/-- Claim C9 (amended): whenever a call to `fetch_all` returns, the
scoped use of the executor (`with self.executor as executor:`) has shut
the worker pool down, so on the returned handler state every subsequent
`fetch` raises a `RuntimeError`, and so does every subsequent
`fetch_all` with at least one URL; only a subsequent `fetch_all` on the
empty list still returns (the empty sequence), executing no request. -/
theorem c9_first_fetch_all_shuts_pool (h : NetworkRequestHandler)
    (urls : List String) (outcome : Nat → GetOutcome) (order : List Nat)
    (run : BatchRun)
    (hok : h.fetch_all urls outcome order = Except.ok run) :
    run.handler.executorShutdown = true ∧
    (∀ (url : String) (o : GetOutcome),
      run.handler.fetch url o = Except.error PyError.runtimeError) ∧
    (∀ (urls2 : List String) (outcome2 : Nat → GetOutcome)
        (order2 : List Nat), urls2 ≠ [] →
      run.handler.fetch_all urls2 outcome2 order2 =
        Except.error PyError.runtimeError) := by
  have hsd : run.handler.executorShutdown = true := by
    rw [NetworkRequestHandler.fetch_all] at hok
    split at hok
    · exact Except.noConfusion hok
    · injection hok with hrun
      rw [← hrun]
  refine ⟨hsd, fun url o => ?_, fun urls2 outcome2 order2 hne => ?_⟩
  · rw [NetworkRequestHandler.fetch, if_pos hsd]
  · rw [NetworkRequestHandler.fetch_all, if_pos ⟨hsd, hne⟩]

/-- Witness for C9: the concrete run of `fetch_all` on one URL, whose
returned handler refuses a subsequent `fetch` and a subsequent
non-empty `fetch_all`. -/
theorem c9_first_fetch_all_shuts_pool_witness :
    (NetworkRequestHandler.mk 5 true false).executorShutdown = true ∧
    (NetworkRequestHandler.mk 5 true false).fetch "u" GetOutcome.raised =
      Except.error PyError.runtimeError ∧
    (NetworkRequestHandler.mk 5 true false).fetch_all ["v"] twoOkOutcomes
      [0] = Except.error PyError.runtimeError :=
  ⟨(c9_first_fetch_all_shuts_pool freshHandler ["a"] twoOkOutcomes [0]
      (BatchRun.mk [some "A"] ["a"] (NetworkRequestHandler.mk 5 true false))
      rfl).1,
   (c9_first_fetch_all_shuts_pool freshHandler ["a"] twoOkOutcomes [0]
      (BatchRun.mk [some "A"] ["a"] (NetworkRequestHandler.mk 5 true false))
      rfl).2.1 "u" GetOutcome.raised,
   (c9_first_fetch_all_shuts_pool freshHandler ["a"] twoOkOutcomes [0]
      (BatchRun.mk [some "A"] ["a"] (NetworkRequestHandler.mk 5 true false))
      rfl).2.2 ["v"] twoOkOutcomes [0] (by decide)⟩

/-- Claim C10: one script run launches at most one external process;
when `ISSUE_TITLE` is non-empty it launches exactly one — the `aider`
command under the 600-second wall-clock timeout — and the interpreter
exits with status 0 exactly when that process was launched and
completed within the timeout with exit code 0; a start failure, a
timeout, or a non-zero child exit all end the run with a non-zero
status. -/
theorem c10_orchestrator_exit_contract (issue_title issue_body : String)
    (proc : ProcOutcome) :
    agentTimeoutSeconds = 600 ∧
    (scriptMain issue_title issue_body proc).launched.length ≤ 1 ∧
    (issue_title ≠ "" →
      (scriptMain issue_title issue_body proc).launched =
        [(agentCommand defaultModelIdentifier issue_title issue_body,
          agentTimeoutSeconds)]) ∧
    ((scriptMain issue_title issue_body proc).exitCode = 0 ↔
      issue_title ≠ "" ∧ proc = ProcOutcome.completed 0) := by
  by_cases ht : issue_title = ""
  · simp [scriptMain, agentTimeoutSeconds, ht]
  · cases proc with
    | completed c =>
      by_cases hc : c = 0
      · subst hc
        simp [scriptMain, execute_agent, agentTimeoutSeconds, ht]
      · simp [scriptMain, execute_agent, agentTimeoutSeconds, ht, hc]
    | timedOut => simp [scriptMain, execute_agent, agentTimeoutSeconds, ht]
    | startFailure =>
      simp [scriptMain, execute_agent, agentTimeoutSeconds, ht]

/-- Witness for C10: a run with a non-empty title whose child process
completes successfully within the timeout. -/
theorem c10_orchestrator_exit_contract_witness :
    agentTimeoutSeconds = 600 ∧
    (scriptMain "t" "b" (ProcOutcome.completed 0)).launched.length ≤ 1 ∧
    (scriptMain "t" "b" (ProcOutcome.completed 0)).launched =
      [(agentCommand defaultModelIdentifier "t" "b",
        agentTimeoutSeconds)] ∧
    ((scriptMain "t" "b" (ProcOutcome.completed 0)).exitCode = 0 ↔
      ("t" : String) ≠ "" ∧
        ProcOutcome.completed 0 = ProcOutcome.completed 0) :=
  ⟨(c10_orchestrator_exit_contract "t" "b" (ProcOutcome.completed 0)).1,
   (c10_orchestrator_exit_contract "t" "b" (ProcOutcome.completed 0)).2.1,
   (c10_orchestrator_exit_contract "t" "b"
      (ProcOutcome.completed 0)).2.2.1 (by decide),
   (c10_orchestrator_exit_contract "t" "b"
      (ProcOutcome.completed 0)).2.2.2⟩
